import Mathlib

/-!
Shallow embedding of the detection-event pipeline of `src/main.ts`
(`OtelCollectorPlugin.handleEvent` and the helpers it reads).

Modelling conventions:
* JavaScript strings are Lean `String`; `x || d` on an optional string is
  `strOr` (both `undefined` and `""` are falsy).
* `Date.now()` timestamps and the values of the `lastEmissionTime` map are
  `Int` (integral milliseconds); JS `Map` is an insertion-ordered
  association list.
* Detection scores are rationals; `Number.prototype.toFixed(2)` is
  `toFixed2`, following the ECMA-262 definition on the exact value
  (round to nearest hundredth, ties toward positive infinity).
* The only effectful collaborator inside the `try` block that can throw is
  the counter sink `this.eventCounter.add(1, attributes)`; its behaviour is
  a parameter `sinkThrows` deciding, per attribute list, whether the call
  throws.  A `null` event payload also throws (property access on `null`),
  which the embedding represents by `eventData = none`.
* The surrounding `try`/`catch` reports a diagnostic and returns; the
  result record's `caught` flag is that diagnostic.
-/

/-- JS `s || dflt` for an optional string: `undefined` and `""` are falsy. -/
def strOr (s : Option String) (dflt : String) : String :=
  match s with
  | none => dflt
  | some v => if v = "" then dflt else v

/-- JS `q || 0` for an optional number (numeric falsy value 0 maps to 0 anyway). -/
def numOr (q : Option ℚ) : ℚ :=
  match q with
  | none => 0
  | some v => v

/-- JS falsiness of an optional string (`!results.detectionId`). -/
def strOptFalsy (s : Option String) : Bool :=
  match s with
  | none => true
  | some v => v == ""

/-- JS `this.settings.deviceCooldown || 10`: `undefined` and `0` give the default. -/
def cooldownOr (c : Option Nat) : Nat :=
  match c with
  | none => 10
  | some 0 => 10
  | some n => n

/-- Does `needle` occur at the start of `hay`? (chars) -/
def charStarts : List Char → List Char → Bool
  | [], _ => true
  | _ :: _, [] => false
  | a :: as, b :: bs => a == b && charStarts as bs

/-- Does `needle` occur anywhere in `hay`? (chars) -/
def charHas : List Char → List Char → Bool
  | needle, [] => needle.isEmpty
  | needle, c :: rest => charStarts needle (c :: rest) || charHas needle rest

/-- JS `hay.includes(needle)`. -/
def includesSub (hay needle : String) : Bool :=
  charHas needle.data hay.data

/-- JS `String.prototype.toLowerCase` (simple case mapping per character). -/
def jsLower (s : String) : String :=
  ⟨s.data.map Char.toLower⟩

/-- JS `String.prototype.trim`: remove leading and trailing whitespace. -/
def jsTrim (s : String) : String :=
  ⟨((s.data.dropWhile Char.isWhitespace).reverse.dropWhile Char.isWhitespace).reverse⟩

/-- JS `String.prototype.split` with a one-character separator
(`"".split(',')` is `[""]`). -/
def splitChar (sep : Char) : List Char → List (List Char)
  | [] => [[]]
  | c :: rest =>
    if c == sep then
      [] :: splitChar sep rest
    else
      match splitChar sep rest with
      | [] => [[c]]
      | grp :: grps => (c :: grp) :: grps

/-- JS `s.split(sep)` for a one-character separator, as strings. -/
def jsSplit (s : String) (sep : Char) : List String :=
  (splitChar sep s.data).map (fun cs => ⟨cs⟩)

/-- `this.settings.eventFilter.split(',').map(f => f.trim()).filter(f => f)`. -/
def parsedFilters (eventFilter : String) : List String :=
  ((jsSplit eventFilter ',').map jsTrim).filter (fun f => f ≠ "")

/-- The class-filter test of `handleEvent` (lines 202-208): the branch body
runs only when `this.settings.eventFilter` is truthy, and skips the detection
when some parsed filter entry is a lower-cased substring of the lower-cased
class name. -/
def shouldSkipClass (eventFilter className : String) : Bool :=
  if eventFilter ≠ "" then
    (parsedFilters eventFilter).any
      (fun filter => includesSub (jsLower className) (jsLower filter))
  else
    false

/-- ECMA-262 `toFixed(2)` on the exact rational value. -/
def pad2 (r : Nat) : String :=
  if r < 10 then "0" ++ toString r else toString r

/-- `score.toFixed(2)` on the exact rational value: ECMA-262 picks the
nearest hundredth, ties toward positive infinity, i.e. `⌊100·q + 1/2⌋`
hundredths, written as one integer floor division `⌊(200·num + den) / (2·den)⌋`
so that it evaluates; printed with exactly two fractional digits. -/
def toFixed2 (q : ℚ) : String :=
  let n : ℤ := Int.fdiv (200 * q.num + (q.den : ℤ)) (2 * (q.den : ℤ))
  let m : ℕ := n.natAbs
  (if n < 0 then "-" else "") ++ toString (m / 100) ++ "." ++ pad2 (m % 100)

/-- The `eventSource : ScryptedDevice` fields read by `handleEvent`. -/
structure EventSource where
  id : String
  name : Option String
  type : Option String
deriving DecidableEq

/-- One entry of `results.detections`. -/
structure Detection where
  className : Option String
  score : Option ℚ
deriving DecidableEq

/-- The `ObjectsDetected` fields read by `handleEvent`. -/
structure ObjectsDetected where
  detectionId : Option String
  timestamp : Option Int
  detections : Option (List Detection)
deriving DecidableEq

/-- The settings fields read by `handleEvent` (`OtelCollectorSettings`). -/
structure OtelCollectorSettings where
  enabled : Bool
  eventFilter : String
  deviceCooldown : Option Nat
deriving DecidableEq

/-- One `eventCounter.add(increment, attributes)` call. -/
structure MetricRecord where
  inc : Nat
  attrs : List (String × String)
deriving DecidableEq

/-- The attribute object built at lines 218-225. -/
def mkAttributes (es : EventSource) (dId : String) (className : String) (score : ℚ) :
    List (String × String) :=
  [("scrypted.device.id", es.id),
   ("scrypted.device.name", strOr es.name "unknown"),
   ("scrypted.device.type", strOr es.type "unknown"),
   ("scrypted.detection.class", className),
   ("scrypted.detection.score", toFixed2 score),
   ("scrypted.detection.id", dId)]

/-- Outcome of the `for (const detection of results.detections)` loop:
either it finishes normally with the list of delivered counter increments
and the final `metricsEmitted` flag, or a sink call throws, aborting the
loop (the increments delivered before the throw stand). -/
inductive LoopOutcome where
  | ok : List MetricRecord → Bool → LoopOutcome
  | threw : List MetricRecord → LoopOutcome
deriving DecidableEq

/-- The delivered counter increments of a loop outcome. -/
def outMetrics : LoopOutcome → List MetricRecord
  | .ok ms _ => ms
  | .threw ms => ms

/-- The detection loop of `handleEvent` (lines 195-232): `seen` is the
`emittedClassNames` set, `flag` the `metricsEmitted` boolean, `acc` the
increments delivered so far. -/
def runDetections (eventFilter : String) (es : EventSource) (dId : String)
    (sinkThrows : List (String × String) → Bool) :
    List Detection → List String → Bool → List MetricRecord → LoopOutcome
  | [], _, flag, acc => .ok acc flag
  | d :: rest, seen, flag, acc =>
    let className := strOr d.className "unknown"
    let score := numOr d.score
    if shouldSkipClass eventFilter className then
      runDetections eventFilter es dId sinkThrows rest seen flag acc
    else if seen.contains className then
      runDetections eventFilter es dId sinkThrows rest seen flag acc
    else
      let attrs := mkAttributes es dId className score
      if sinkThrows attrs then
        .threw acc
      else
        runDetections eventFilter es dId sinkThrows rest (className :: seen) true
          (acc ++ [⟨1, attrs⟩])

/-- The truthiness-guarded cooldown test of lines 177-181:
`lastEmission && (now - lastEmission) < cooldownMs` (a stored timestamp of
`0` is falsy and disables the check). -/
def gateSuppressed (lastEmission : Option Int) (now cooldownMs : Int) : Bool :=
  match lastEmission with
  | none => false
  | some t => (!(t == 0)) && decide (now - t < cooldownMs)

/-- JS `Map.prototype.set`: replace in place or append. -/
def mapSet : List (String × Int) → String → Int → List (String × Int)
  | [], k, v => [(k, v)]
  | (k', v') :: rest, k, v =>
    if k' == k then (k, v) :: rest else (k', v') :: mapSet rest k v

/-- Result of one `handleEvent` call: the delivered counter increments, the
`lastEmissionTime` map afterwards, and whether the `catch` block ran. -/
structure HandleResult where
  emitted : List MetricRecord
  state : List (String × Int)
  caught : Bool
deriving DecidableEq

/-- `OtelCollectorPlugin.handleEvent` (lines 152-244).  `hasCounter` models
`this.eventCounter` being set; `eventData = none` models a `null` payload,
whose `results.detectionId` property access throws and lands in the
`catch`. -/
def handleEvent (settings : OtelCollectorSettings) (hasCounter : Bool)
    (sinkThrows : List (String × String) → Bool)
    (lastEmissionTime : List (String × Int))
    (eventSource : Option EventSource) (eventData : Option ObjectsDetected)
    (now : Int) : HandleResult :=
  if !settings.enabled || !hasCounter then
    ⟨[], lastEmissionTime, false⟩
  else
    match eventSource with
    | none => ⟨[], lastEmissionTime, false⟩
    | some es =>
      if es.id = "" then ⟨[], lastEmissionTime, false⟩
      else
        match eventData with
        | none => ⟨[], lastEmissionTime, true⟩
        | some results =>
          if strOptFalsy results.detectionId then ⟨[], lastEmissionTime, false⟩
          else
            if gateSuppressed (List.lookup es.id lastEmissionTime) now
                ((cooldownOr settings.deviceCooldown : Int) * 1000) then
              ⟨[], lastEmissionTime, false⟩
            else
              match results.detections with
              | none => ⟨[], lastEmissionTime, false⟩
              | some dets =>
                match runDetections settings.eventFilter es (results.detectionId.getD "")
                    sinkThrows dets [] false [] with
                | .ok ms flag =>
                  if flag then ⟨ms, mapSet lastEmissionTime es.id now, false⟩
                  else ⟨ms, lastEmissionTime, false⟩
                | .threw ms => ⟨ms, lastEmissionTime, true⟩

/-- A sink that never throws (normal operation). -/
def noThrow : List (String × String) → Bool := fun _ => false

/-- Two detections that the pipeline cannot distinguish: same defaulted
class name and same defaulted score. -/
def detEquiv (d d' : Detection) : Prop :=
  strOr d.className "unknown" = strOr d'.className "unknown" ∧
    numOr d.score = numOr d'.score

theorem runDetections_ok_shape (ef : String) (es : EventSource) (dId : String)
    (sk : List (String × String) → Bool) :
    ∀ (l : List Detection) (seen : List String) (flag : Bool)
      (acc ms : List MetricRecord) (flag' : Bool),
      runDetections ef es dId sk l seen flag acc = .ok ms flag' →
      ∃ extra, ms = acc ++ extra ∧ flag' = (flag || !extra.isEmpty) := by
  intro l
  induction l with
  | nil =>
    intro seen flag acc ms flag' h
    simp only [runDetections, LoopOutcome.ok.injEq] at h
    exact ⟨[], by simp [h.1], by simp [h.2]⟩
  | cons d rest ih =>
    intro seen flag acc ms flag' h
    simp only [runDetections] at h
    split at h
    · exact ih _ _ _ _ _ h
    · split at h
      · exact ih _ _ _ _ _ h
      · split at h
        · cases h
        · obtain ⟨extra, hms, hflag⟩ := ih _ _ _ _ _ h
          refine ⟨⟨1, mkAttributes es dId (strOr d.className "unknown") (numOr d.score)⟩ :: extra,
            by simp [hms], by simp [hflag]⟩

theorem runDetections_noThrow_ok (ef : String) (es : EventSource) (dId : String) :
    ∀ (l : List Detection) (seen : List String) (flag : Bool) (acc : List MetricRecord),
      ∃ ms flag', runDetections ef es dId noThrow l seen flag acc = .ok ms flag' := by
  intro l
  induction l with
  | nil => intro seen flag acc; exact ⟨acc, flag, rfl⟩
  | cons d rest ih =>
    intro seen flag acc
    simp only [runDetections, noThrow]
    split
    · exact ih _ _ _
    · split
      · exact ih _ _ _
      · simpa using ih _ _ _

theorem runDetections_mem (ef : String) (es : EventSource) (dId : String)
    (sk : List (String × String) → Bool) :
    ∀ (l : List Detection) (seen : List String) (flag : Bool)
      (acc : List MetricRecord) (rec : MetricRecord),
      rec ∈ outMetrics (runDetections ef es dId sk l seen flag acc) →
      rec ∈ acc ∨ ∃ d ∈ l,
        rec = ⟨1, mkAttributes es dId (strOr d.className "unknown") (numOr d.score)⟩ ∧
        shouldSkipClass ef (strOr d.className "unknown") = false := by
  intro l
  induction l with
  | nil =>
    intro seen flag acc rec h
    left
    simpa [runDetections, outMetrics] using h
  | cons d rest ih =>
    intro seen flag acc rec h
    simp only [runDetections] at h
    split at h
    · rcases ih _ _ _ _ h with hacc | ⟨d', hd', heq, hsk⟩
      · exact Or.inl hacc
      · exact Or.inr ⟨d', List.mem_cons_of_mem _ hd', heq, hsk⟩
    · split at h
      · rcases ih _ _ _ _ h with hacc | ⟨d', hd', heq, hsk⟩
        · exact Or.inl hacc
        · exact Or.inr ⟨d', List.mem_cons_of_mem _ hd', heq, hsk⟩
      · rename_i hskip hseen
        split at h
        · exact Or.inl (by simpa [outMetrics] using h)
        · rcases ih _ _ _ _ h with hacc | ⟨d', hd', heq, hsk⟩
          · rcases List.mem_append.mp hacc with hl | hr
            · exact Or.inl hl
            · refine Or.inr ⟨d, List.mem_cons_self _ _, by simpa using hr, ?_⟩
              simpa using hskip
          · exact Or.inr ⟨d', List.mem_cons_of_mem _ hd', heq, hsk⟩

theorem runDetections_seen_all (ef : String) (es : EventSource) (dId : String)
    (sk : List (String × String) → Bool) (c : String) :
    ∀ (l : List Detection) (seen : List String) (flag : Bool) (acc : List MetricRecord),
      (∀ d ∈ l, strOr d.className "unknown" = c) →
      seen.contains c = true →
      runDetections ef es dId sk l seen flag acc = .ok acc flag := by
  intro l
  induction l with
  | nil => intro seen flag acc _ _; rfl
  | cons d rest ih =>
    intro seen flag acc hall hseen
    have hc : strOr d.className "unknown" = c := hall d (List.mem_cons_self _ _)
    have hrest : ∀ d' ∈ rest, strOr d'.className "unknown" = c :=
      fun d' hd' => hall d' (List.mem_cons_of_mem _ hd')
    simp only [runDetections, hc, hseen]
    split
    · exact ih _ _ _ hrest hseen
    · exact ih _ _ _ hrest hseen

theorem runDetections_congr (ef : String) (es : EventSource) (dId : String)
    (sk : List (String × String) → Bool) :
    ∀ {l l' : List Detection}, List.Forall₂ detEquiv l l' →
      ∀ (seen : List String) (flag : Bool) (acc : List MetricRecord),
        runDetections ef es dId sk l seen flag acc =
          runDetections ef es dId sk l' seen flag acc := by
  intro l l' h
  induction h with
  | nil => intro seen flag acc; rfl
  | cons hd htl ih =>
    intro seen flag acc
    obtain ⟨hc, hq⟩ := hd
    simp only [runDetections]
    rw [hc, hq]
    split
    · exact ih _ _ _
    · split
      · exact ih _ _ _
      · split
        · rfl
        · exact ih _ _ _

theorem pad2_length : ∀ r : Nat, r < 100 → (pad2 r).length = 2 := by decide

theorem toFixed2_shape (q : ℚ) :
    ∃ ip fp, toFixed2 q = ip ++ "." ++ fp ∧ fp.length = 2 := by
  refine ⟨_, _, rfl, pad2_length _ (Nat.mod_lt _ (by norm_num))⟩

theorem mkAttributes_keys (es : EventSource) (dId className : String) (score : ℚ) :
    (mkAttributes es dId className score).map Prod.fst =
      ["scrypted.device.id", "scrypted.device.name", "scrypted.device.type",
       "scrypted.detection.class", "scrypted.detection.score", "scrypted.detection.id"] := rfl

theorem mkAttributes_lookup_class (es : EventSource) (dId className : String) (score : ℚ) :
    List.lookup "scrypted.detection.class" (mkAttributes es dId className score) =
      some className := rfl

theorem mkAttributes_lookup_score (es : EventSource) (dId className : String) (score : ℚ) :
    List.lookup "scrypted.detection.score" (mkAttributes es dId className score) =
      some (toFixed2 score) := rfl

theorem mkAttributes_lookup_id (es : EventSource) (dId className : String) (score : ℚ) :
    List.lookup "scrypted.detection.id" (mkAttributes es dId className score) =
      some dId := rfl

theorem handleEvent_mem (settings : OtelCollectorSettings) (hasCounter : Bool)
    (sinkThrows : List (String × String) → Bool) (st : List (String × Int))
    (src : Option EventSource) (eventData : Option ObjectsDetected) (now : Int)
    (rec : MetricRecord) :
    rec ∈ (handleEvent settings hasCounter sinkThrows st src eventData now).emitted →
    ∃ es results dId dets d,
      src = some es ∧ eventData = some results ∧
      results.detectionId = some dId ∧ dId ≠ "" ∧
      results.detections = some dets ∧ d ∈ dets ∧
      rec = ⟨1, mkAttributes es dId (strOr d.className "unknown") (numOr d.score)⟩ ∧
      shouldSkipClass settings.eventFilter (strOr d.className "unknown") = false := by
  intro h
  unfold handleEvent at h
  split at h
  · simp at h
  · split at h
    · simp at h
    · rename_i es
      split at h
      · simp at h
      · split at h
        · simp at h
        · rename_i results
          split at h
          · simp at h
          · rename_i hdid
            split at h
            · simp at h
            · split at h
              · simp at h
              · rename_i dets hdets
                obtain ⟨dId, hsome, hne⟩ :
                    ∃ dId, results.detectionId = some dId ∧ dId ≠ "" := by
                  cases hdv : results.detectionId with
                  | none => rw [hdv] at hdid; simp [strOptFalsy] at hdid
                  | some s =>
                    refine ⟨s, rfl, ?_⟩
                    rw [hdv] at hdid
                    simpa [strOptFalsy] using hdid
                have hget : results.detectionId.getD "" = dId := by rw [hsome]; rfl
                split at h
                · rename_i ms flag heq
                  have hmem : rec ∈ outMetrics
                      (runDetections settings.eventFilter es (results.detectionId.getD "")
                        sinkThrows dets [] false []) := by
                    rw [heq]
                    split at h
                    · simpa [outMetrics] using h
                    · simpa [outMetrics] using h
                  rcases runDetections_mem _ _ _ _ _ _ _ _ _ hmem with habs | ⟨d, hd, hrec, hsk⟩
                  · simp at habs
                  · rw [hget] at hrec
                    exact ⟨es, results, dId, dets, d, rfl, rfl, hsome, hne, hdets, hd, hrec, hsk⟩
                · rename_i ms heq
                  have hmem : rec ∈ outMetrics
                      (runDetections settings.eventFilter es (results.detectionId.getD "")
                        sinkThrows dets [] false []) := by
                    rw [heq]
                    simpa [outMetrics] using h
                  rcases runDetections_mem _ _ _ _ _ _ _ _ _ hmem with habs | ⟨d, hd, hrec, hsk⟩
                  · simp at habs
                  · rw [hget] at hrec
                    exact ⟨es, results, dId, dets, d, rfl, rfl, hsome, hne, hdets, hd, hrec, hsk⟩

/-- Claim C6: for every inbound event whose payload lacks a non-empty session
identifier (`detectionId` absent or empty), zero metrics are emitted, the
cooldown state is unchanged, and no exception is raised (the `catch` block
does not run); the event is dropped before any per-detection processing. -/
theorem missing_detection_id_drops_event (settings : OtelCollectorSettings)
    (hasCounter : Bool) (sinkThrows : List (String × String) → Bool)
    (st : List (String × Int)) (src : Option EventSource)
    (results : ObjectsDetected) (now : Int)
    (h : results.detectionId = none ∨ results.detectionId = some "") :
    handleEvent settings hasCounter sinkThrows st src (some results) now =
      ⟨[], st, false⟩ := by
  have hf : strOptFalsy results.detectionId = true := by
    rcases h with h | h <;> simp [h, strOptFalsy]
  unfold handleEvent
  split
  · rfl
  · split
    · rfl
    · split
      · rfl
      · simp [hf]

/-- Witness for C6 at a concrete input: a session with no `detectionId`. -/
theorem missing_detection_id_drops_event_witness :
    handleEvent ⟨true, "", none⟩ true noThrow [("d9", 42)]
      (some ⟨"d1", some "cam", some "Camera"⟩)
      (some ⟨none, none, some [⟨some "person", some 1⟩]⟩) 5000 =
      ⟨[], [("d9", 42)], false⟩ :=
  missing_detection_id_drops_event _ _ _ _ _ _ _ (Or.inl rfl)

/-- Claim C8: event handling is wrapped in a `try`/`catch`; whatever the
payload shape (a `null` payload, whose property access throws, or a throwing
sink call), no exception escapes `handleEvent` — the embedding is a total
function — and whenever the `catch` block runs (`caught = true`) the
cooldown state is left exactly as it was before the session. -/
theorem handle_event_no_escape (settings : OtelCollectorSettings) (hasCounter : Bool)
    (sinkThrows : List (String × String) → Bool) (st : List (String × Int))
    (src : Option EventSource) (eventData : Option ObjectsDetected) (now : Int) :
    (handleEvent settings hasCounter sinkThrows st src eventData now).caught = true →
    (handleEvent settings hasCounter sinkThrows st src eventData now).state = st := by
  unfold handleEvent
  split
  · intro _; rfl
  · split
    · intro _; rfl
    · split
      · intro _; rfl
      · split
        · intro _; rfl
        · split
          · intro _; rfl
          · split
            · intro _; rfl
            · split
              · intro _; rfl
              · split
                · split
                  · intro h; simp at h
                  · intro _; rfl
                · intro _; rfl

/-- Witness for C8 at a concrete input: a `null` payload throws inside the
`try`, the `catch` runs, and the cooldown state is untouched. -/
theorem handle_event_no_escape_witness :
    (handleEvent ⟨true, "", none⟩ true noThrow [("x", 7)]
        (some ⟨"d1", none, none⟩) none 0).caught = true ∧
    (handleEvent ⟨true, "", none⟩ true noThrow [("x", 7)]
        (some ⟨"d1", none, none⟩) none 0).state = [("x", 7)] :=
  ⟨by decide, handle_event_no_escape _ _ _ _ _ _ _ (by decide)⟩

/-- Counterexample to claim C2 as stated: a `CooldownState` entry with
timestamp `0` exists and `now - last < cooldownMs` holds, yet the session is
NOT suppressed (a metric is emitted and the timestamp is rewritten), because
the code's truthiness test `lastEmission && ...` treats a stored `0` as
absent. -/
theorem cooldown_zero_timestamp_not_suppressed :
    List.lookup "d1" [(("d1" : String), (0 : Int))] = some 0 ∧
    ((5000 : Int) - 0 < (cooldownOr none : Int) * 1000) ∧
    (handleEvent ⟨true, "", none⟩ true noThrow [("d1", 0)]
        (some ⟨"d1", some "cam", some "Camera"⟩)
        (some ⟨some "s1", none, some [⟨some "person", some (mkRat 92 100)⟩]⟩)
        5000).emitted ≠ [] ∧
    (handleEvent ⟨true, "", none⟩ true noThrow [("d1", 0)]
        (some ⟨"d1", some "cam", some "Camera"⟩)
        (some ⟨some "s1", none, some [⟨some "person", some (mkRat 92 100)⟩]⟩)
        5000).state = [("d1", 5000)] :=
  ⟨by decide, by decide, by decide, by decide⟩

/-- Claim C2 as amended: for every device whose `CooldownState` entry exists
with a NONZERO `lastEmissionTimestamp` satisfying
`now - lastEmissionTimestamp < cooldownMs`, the inbound session is entirely
suppressed — zero metrics are emitted and the state is unchanged (this also
covers the earlier-return paths, which likewise emit nothing and leave the
state alone). -/
theorem cooldown_nonzero_suppresses (settings : OtelCollectorSettings)
    (hasCounter : Bool) (sinkThrows : List (String × String) → Bool)
    (st : List (String × Int)) (es : EventSource)
    (eventData : Option ObjectsDetected) (now t : Int)
    (hlast : List.lookup es.id st = some t) (ht : t ≠ 0)
    (hcool : now - t < (cooldownOr settings.deviceCooldown : Int) * 1000) :
    (handleEvent settings hasCounter sinkThrows st (some es) eventData now).emitted = [] ∧
    (handleEvent settings hasCounter sinkThrows st (some es) eventData now).state = st := by
  have hg : gateSuppressed (List.lookup es.id st) now
      ((cooldownOr settings.deviceCooldown : Int) * 1000) = true := by
    simp [gateSuppressed, hlast, ht, hcool]
  unfold handleEvent
  repeat' split
  all_goals simp_all

/-- Witness for the amended C2 at a concrete input: a device that emitted at
`t = 1000` sees its session at `t = 5000` fully suppressed under the default
10 s cooldown. -/
theorem cooldown_nonzero_suppresses_witness :
    (handleEvent ⟨true, "", none⟩ true noThrow [("d1", 1000)]
        (some ⟨"d1", none, none⟩)
        (some ⟨some "s1", none, some [⟨some "person", some 1⟩]⟩) 5000).emitted = [] ∧
    (handleEvent ⟨true, "", none⟩ true noThrow [("d1", 1000)]
        (some ⟨"d1", none, none⟩)
        (some ⟨some "s1", none, some [⟨some "person", some 1⟩]⟩) 5000).state =
      [("d1", 1000)] :=
  cooldown_nonzero_suppresses ⟨true, "", none⟩ true noThrow [("d1", 1000)]
    ⟨"d1", none, none⟩ (some ⟨some "s1", none, some [⟨some "person", some 1⟩]⟩)
    5000 1000 (by decide) (by decide) (by decide)

theorem handleEvent_emitted_nil_state (settings : OtelCollectorSettings)
    (hasCounter : Bool) (sinkThrows : List (String × String) → Bool)
    (st : List (String × Int)) (src : Option EventSource)
    (eventData : Option ObjectsDetected) (now : Int) :
    (handleEvent settings hasCounter sinkThrows st src eventData now).emitted = [] →
    (handleEvent settings hasCounter sinkThrows st src eventData now).state = st := by
  unfold handleEvent
  repeat' split
  all_goals intro h
  all_goals try rfl
  rename_i heq hflag
  obtain ⟨extra, hms, hfl⟩ := runDetections_ok_shape _ _ _ _ _ _ _ _ _ _ heq
  have hnil : extra = [] := by
    have hms' : extra = [] := by
      have := hms
      simp only [List.nil_append] at this
      simp only [] at h
      rw [h] at this
      exact this.symm
    exact hms'
  rw [hnil] at hfl
  simp at hfl
  rw [hfl] at hflag
  simp at hflag

theorem handleEvent_noThrow_emitted_state (settings : OtelCollectorSettings)
    (hasCounter : Bool) (st : List (String × Int)) (es : EventSource)
    (eventData : Option ObjectsDetected) (now : Int) :
    (handleEvent settings hasCounter noThrow st (some es) eventData now).emitted ≠ [] →
    (handleEvent settings hasCounter noThrow st (some es) eventData now).state =
      mapSet st es.id now := by
  unfold handleEvent
  repeat' split
  all_goals intro h
  all_goals try exact absurd rfl h
  next => simp_all
  next =>
    rename_i heq hflag
    obtain ⟨extra, hms, hfl⟩ := runDetections_ok_shape _ _ _ _ _ _ _ _ _ _ heq
    have hext : extra = [] := by
      cases extra with
      | nil => rfl
      | cons x xs => rw [hfl] at hflag; simp at hflag
    rw [hext] at hms
    simp only [List.append_nil, List.nil_append] at hms
    simp only [] at h
    exact absurd hms h
  next =>
    rename_i ms heq
    obtain ⟨ms', flag', hok⟩ := runDetections_noThrow_ok _ _ _ _ _ _ _
    rw [hok] at heq
    cases heq

/-- Counterexample to claim C3 as stated: the "if and only if" direction
fails when the sink throws mid-session.  Here the first detection (person)
is emitted successfully, the second (vehicle) makes the counter throw; at
least one metric was emitted from the session, yet `lastEmissionTimestamp`
is never written (the exception jumps over the update at line 237). -/
theorem sink_throw_skips_timestamp_update :
    (handleEvent ⟨true, "", none⟩ true
        (fun attrs => List.lookup "scrypted.detection.class" attrs == some "vehicle") []
        (some ⟨"d1", some "cam", some "Camera"⟩)
        (some ⟨some "s1", none, some [⟨some "person", some (mkRat 92 100)⟩,
                                      ⟨some "vehicle", some (mkRat 83 100)⟩]⟩)
        5000).emitted ≠ [] ∧
    (handleEvent ⟨true, "", none⟩ true
        (fun attrs => List.lookup "scrypted.detection.class" attrs == some "vehicle") []
        (some ⟨"d1", some "cam", some "Camera"⟩)
        (some ⟨some "s1", none, some [⟨some "person", some (mkRat 92 100)⟩,
                                      ⟨some "vehicle", some (mkRat 83 100)⟩]⟩)
        5000).state = [] :=
  ⟨by decide, by decide⟩

/-- Claim C3 as amended: a session from which zero metrics are emitted never
creates or refreshes `lastEmissionTimestamp` (for any sink behaviour,
throwing or not); and when the sink does not throw, `lastEmissionTimestamp`
is set to `now` if and only if at least one metric was emitted — a session
aborted by a sink exception does not update it even if earlier detections
emitted. -/
theorem emission_gates_timestamp_update (settings : OtelCollectorSettings)
    (hasCounter : Bool) (st : List (String × Int)) (es : EventSource)
    (eventData : Option ObjectsDetected) (now : Int) :
    (∀ sinkThrows : List (String × String) → Bool,
      (handleEvent settings hasCounter sinkThrows st (some es) eventData now).emitted = [] →
      (handleEvent settings hasCounter sinkThrows st (some es) eventData now).state = st) ∧
    ((handleEvent settings hasCounter noThrow st (some es) eventData now).emitted ≠ [] →
      (handleEvent settings hasCounter noThrow st (some es) eventData now).state =
        mapSet st es.id now) :=
  ⟨fun sinkThrows => handleEvent_emitted_nil_state settings hasCounter sinkThrows st
      (some es) eventData now,
   handleEvent_noThrow_emitted_state settings hasCounter st es eventData now⟩

/-- Witness for the amended C3: an all-filtered session leaves the state
alone; a session that emits rewrites the device timestamp. -/
theorem emission_gates_timestamp_update_witness :
    (handleEvent ⟨true, "person", none⟩ true noThrow [] (some ⟨"d1", none, none⟩)
      (some ⟨some "s1", none, some [⟨some "person", some 1⟩]⟩) 5000).state = [] ∧
    (handleEvent ⟨true, "", none⟩ true noThrow [] (some ⟨"d1", none, none⟩)
      (some ⟨some "s1", none, some [⟨some "person", some 1⟩]⟩) 5000).state =
      mapSet [] "d1" 5000 :=
  ⟨(emission_gates_timestamp_update ⟨true, "person", none⟩ true [] ⟨"d1", none, none⟩
      (some ⟨some "s1", none, some [⟨some "person", some 1⟩]⟩) 5000).1 noThrow (by decide),
   (emission_gates_timestamp_update ⟨true, "", none⟩ true [] ⟨"d1", none, none⟩
      (some ⟨some "s1", none, some [⟨some "person", some 1⟩]⟩) 5000).2 (by decide)⟩

/-- Counterexample to claim C4 as stated: the sink throws on the only
detection of the session; the emission call was attempted, yet
`lastEmissionTimestamp` is NOT written (the claim says the attempted
emission "still counts as emitted" for the update).  The error is caught
(`caught = true`) and the state is left empty. -/
theorem sink_throw_attempted_not_counted :
    handleEvent ⟨true, "", none⟩ true (fun _ => true) []
        (some ⟨"d1", some "cam", some "Camera"⟩)
        (some ⟨some "s1", none, some [⟨some "person", some (mkRat 92 100)⟩]⟩) 5000 =
      ⟨[], [], true⟩ ∧
    List.lookup "d1" (handleEvent ⟨true, "", none⟩ true (fun _ => true) []
        (some ⟨"d1", some "cam", some "Camera"⟩)
        (some ⟨some "s1", none, some [⟨some "person", some (mkRat 92 100)⟩]⟩) 5000).state =
      none :=
  ⟨by decide, by decide⟩

/-- Claim C4 as amended: if the sink emission call throws during a session
that reached the detection loop, the error is caught and flagged as a
diagnostic (`caught = true`), no exception propagates (the function returns
a result), the cooldown state is exactly the pre-session state — in
particular the session does NOT update `lastEmissionTimestamp`, even when
earlier detections of the same session emitted successfully — and the
increments delivered before the throw are exactly the reported ones. -/
theorem sink_throw_caught_state_preserved (settings : OtelCollectorSettings)
    (sinkThrows : List (String × String) → Bool) (st : List (String × Int))
    (es : EventSource) (results : ObjectsDetected) (now : Int)
    (dets : List Detection) (ms : List MetricRecord)
    (hen : settings.enabled = true) (hid : es.id ≠ "")
    (hdid : strOptFalsy results.detectionId = false)
    (hgate : gateSuppressed (List.lookup es.id st) now
      ((cooldownOr settings.deviceCooldown : Int) * 1000) = false)
    (hdets : results.detections = some dets)
    (hrun : runDetections settings.eventFilter es (results.detectionId.getD "")
      sinkThrows dets [] false [] = .threw ms) :
    handleEvent settings true sinkThrows st (some es) (some results) now =
      ⟨ms, st, true⟩ := by
  unfold handleEvent
  simp [hen, hid, hdid, hgate, hdets, hrun]

/-- Witness for the amended C4 at a concrete input: a sink that always
throws aborts the session, the catch runs, and the state survives. -/
theorem sink_throw_caught_state_preserved_witness :
    handleEvent ⟨true, "", none⟩ true (fun _ => true) [("d9", 1)]
        (some ⟨"d1", none, none⟩)
        (some ⟨some "s1", none, some [⟨some "person", some 1⟩]⟩) 5000 =
      ⟨[], [("d9", 1)], true⟩ :=
  sink_throw_caught_state_preserved ⟨true, "", none⟩ (fun _ => true) [("d9", 1)]
    ⟨"d1", none, none⟩ ⟨some "s1", none, some [⟨some "person", some 1⟩]⟩ 5000
    [⟨some "person", some 1⟩] [] rfl (by decide) (by decide) (by decide) rfl (by decide)

/-- Claim C1: for every session that passes the cooldown gate and whose
detections all carry the same (defaulted) class name `c`, with `c` not
matched by the class filter and a non-throwing sink, exactly one metric is
emitted, and it carries the score of the first detection in reported order —
later occurrences are skipped by the per-session dedup set even if their
score is higher. -/
theorem detection_dedup_first_wins (settings : OtelCollectorSettings)
    (st : List (String × Int)) (es : EventSource) (results : ObjectsDetected)
    (now : Int) (c dId : String) (d0 : Detection) (rest : List Detection)
    (hen : settings.enabled = true) (hid : es.id ≠ "")
    (hdid : results.detectionId = some dId) (hdne : dId ≠ "")
    (hgate : gateSuppressed (List.lookup es.id st) now
      ((cooldownOr settings.deviceCooldown : Int) * 1000) = false)
    (hdets : results.detections = some (d0 :: rest))
    (hall : ∀ d ∈ d0 :: rest, strOr d.className "unknown" = c)
    (hnsk : shouldSkipClass settings.eventFilter c = false) :
    (handleEvent settings true noThrow st (some es) (some results) now).emitted =
      [⟨1, mkAttributes es dId c (numOr d0.score)⟩] := by
  have hc0 : strOr d0.className "unknown" = c := hall d0 (List.mem_cons_self _ _)
  have hrun : runDetections settings.eventFilter es dId noThrow (d0 :: rest) [] false [] =
      .ok [⟨1, mkAttributes es dId c (numOr d0.score)⟩] true := by
    simp only [runDetections, hc0, hnsk, noThrow, Bool.false_eq_true, if_false,
      List.contains_nil, List.nil_append]
    exact runDetections_seen_all settings.eventFilter es dId noThrow c rest [c] true _
      (fun d hd => hall d (List.mem_cons_of_mem _ hd)) (by simp)
  unfold handleEvent
  simp [hen, hid, hdid, hdne, hgate, hdets, strOptFalsy, hrun]

/-- Witness for C1 at the spec's scenario 2: three `vehicle` detections with
scores 0.83, 0.89, 0.94 produce exactly one metric carrying 0.83. -/
theorem detection_dedup_first_wins_witness :
    (handleEvent ⟨true, "", none⟩ true noThrow []
        (some ⟨"d1", some "cam", some "Camera"⟩)
        (some ⟨some "s2", none, some
          [⟨some "vehicle", some (mkRat 83 100)⟩,
           ⟨some "vehicle", some (mkRat 89 100)⟩,
           ⟨some "vehicle", some (mkRat 94 100)⟩]⟩) 1000).emitted =
      [⟨1, mkAttributes ⟨"d1", some "cam", some "Camera"⟩ "s2" "vehicle" (mkRat 83 100)⟩] :=
  detection_dedup_first_wins ⟨true, "", none⟩ [] ⟨"d1", some "cam", some "Camera"⟩
    ⟨some "s2", none, some
      [⟨some "vehicle", some (mkRat 83 100)⟩,
       ⟨some "vehicle", some (mkRat 89 100)⟩,
       ⟨some "vehicle", some (mkRat 94 100)⟩]⟩ 1000 "vehicle" "s2"
    ⟨some "vehicle", some (mkRat 83 100)⟩
    [⟨some "vehicle", some (mkRat 89 100)⟩, ⟨some "vehicle", some (mkRat 94 100)⟩]
    rfl (by decide) rfl (by decide) (by decide) rfl (by decide) (by decide)

theorem parsedFilters_of_empty : parsedFilters "" = [] := rfl

theorem shouldSkipClass_of_mem (eventFilter entry c : String)
    (hmem : entry ∈ parsedFilters eventFilter)
    (hinc : includesSub (jsLower c) (jsLower entry) = true) :
    shouldSkipClass eventFilter c = true := by
  have hne : eventFilter ≠ "" := by
    intro h
    rw [h, parsedFilters_of_empty] at hmem
    exact List.not_mem_nil _ hmem
  unfold shouldSkipClass
  rw [if_pos hne]
  exact List.any_eq_true.mpr ⟨entry, hmem, hinc⟩

/-- Claim C5: (a) for every parsed denylist entry and every class name whose
lower-cased form contains that entry as a substring (case-insensitively),
no emitted metric ever carries that class name, regardless of its score and
of the sink's behaviour; (b) when the parsed denylist is empty (empty
`eventFilter`, or one parsing to no entries), the class filter skips
nothing. -/
theorem denylist_blocks_and_empty_passes :
    (∀ (settings : OtelCollectorSettings) (hasCounter : Bool)
       (sinkThrows : List (String × String) → Bool) (st : List (String × Int))
       (src : Option EventSource) (eventData : Option ObjectsDetected) (now : Int)
       (entry c : String) (rec : MetricRecord),
       entry ∈ parsedFilters settings.eventFilter →
       includesSub (jsLower c) (jsLower entry) = true →
       rec ∈ (handleEvent settings hasCounter sinkThrows st src eventData now).emitted →
       List.lookup "scrypted.detection.class" rec.attrs ≠ some c) ∧
    (∀ eventFilter c : String, parsedFilters eventFilter = [] →
       shouldSkipClass eventFilter c = false) := by
  constructor
  · intro settings hasCounter sinkThrows st src eventData now entry c rec hmem hinc hrec hcls
    obtain ⟨es, results, dId, dets, d, _, _, _, _, _, _, hrecEq, hsk⟩ :=
      handleEvent_mem _ _ _ _ _ _ _ _ hrec
    rw [hrecEq] at hcls
    rw [mkAttributes_lookup_class] at hcls
    have hcc : strOr d.className "unknown" = c := by
      simpa using hcls
    rw [hcc] at hsk
    rw [shouldSkipClass_of_mem settings.eventFilter entry c hmem hinc] at hsk
    cases hsk
  · intro eventFilter c hnil
    unfold shouldSkipClass
    split
    · rw [hnil]
      rfl
    · rfl

/-- Witness for C5 at concrete inputs: with denylist "motion", the emitted
record of a person/motion session never carries class "motion"; and the
denylist "," parses to no entries and filters nothing. -/
theorem denylist_blocks_and_empty_passes_witness :
    List.lookup "scrypted.detection.class"
        (mkAttributes ⟨"d1", some "cam", some "Camera"⟩ "s1" "person" (mkRat 92 100)) ≠
      some "motion" ∧
    shouldSkipClass "," "person" = false :=
  ⟨denylist_blocks_and_empty_passes.1 ⟨true, "motion", none⟩ true noThrow []
      (some ⟨"d1", some "cam", some "Camera"⟩)
      (some ⟨some "s1", none, some [⟨some "person", some (mkRat 92 100)⟩,
                                    ⟨some "motion", some 1⟩]⟩) 5000
      "motion" "motion" ⟨1, mkAttributes ⟨"d1", some "cam", some "Camera"⟩ "s1" "person"
        (mkRat 92 100)⟩ (by decide) (by decide) (by decide),
   denylist_blocks_and_empty_passes.2 "," "person" (by decide)⟩

/-- Claim C7: every metric handed to the sink is a counter increment of
exactly 1 carrying exactly the six attributes
`scrypted.device.id/name/type` and `scrypted.detection.class/score/id`,
in which `scrypted.detection.score` is the detection's (defaulted) score
formatted with exactly two decimal places and `scrypted.detection.id` is the
session identifier `detectionId`. -/
theorem metric_schema_exact (settings : OtelCollectorSettings) (hasCounter : Bool)
    (sinkThrows : List (String × String) → Bool) (st : List (String × Int))
    (src : Option EventSource) (eventData : Option ObjectsDetected) (now : Int)
    (rec : MetricRecord)
    (hrec : rec ∈ (handleEvent settings hasCounter sinkThrows st src eventData now).emitted) :
    rec.inc = 1 ∧
    rec.attrs.map Prod.fst =
      ["scrypted.device.id", "scrypted.device.name", "scrypted.device.type",
       "scrypted.detection.class", "scrypted.detection.score", "scrypted.detection.id"] ∧
    (∃ results dId dets d, eventData = some results ∧
       results.detectionId = some dId ∧ results.detections = some dets ∧ d ∈ dets ∧
       List.lookup "scrypted.detection.id" rec.attrs = some dId ∧
       List.lookup "scrypted.detection.score" rec.attrs =
         some (toFixed2 (numOr d.score)) ∧
       ∃ ip fp, toFixed2 (numOr d.score) = ip ++ "." ++ fp ∧ fp.length = 2) := by
  obtain ⟨es, results, dId, dets, d, hsrc, hdata, hdid, hne, hdets, hd, hrecEq, hsk⟩ :=
    handleEvent_mem _ _ _ _ _ _ _ _ hrec
  subst hrecEq
  obtain ⟨ip, fp, hshape, hlen⟩ := toFixed2_shape (numOr d.score)
  exact ⟨rfl, mkAttributes_keys es dId _ _,
    results, dId, dets, d, hdata, hdid, hdets, hd,
    mkAttributes_lookup_id es dId _ _, mkAttributes_lookup_score es dId _ _,
    ip, fp, hshape, hlen⟩

/-- Witness for C7: the record emitted for the person detection of a
concrete session has increment 1 and exactly the six schema keys. -/
theorem metric_schema_exact_witness :
    (⟨1, mkAttributes ⟨"d1", some "cam", some "Camera"⟩ "s1" "person" (mkRat 92 100)⟩ :
        MetricRecord).inc = 1 ∧
    (⟨1, mkAttributes ⟨"d1", some "cam", some "Camera"⟩ "s1" "person" (mkRat 92 100)⟩ :
        MetricRecord).attrs.map Prod.fst =
      ["scrypted.device.id", "scrypted.device.name", "scrypted.device.type",
       "scrypted.detection.class", "scrypted.detection.score", "scrypted.detection.id"] :=
  ⟨(metric_schema_exact ⟨true, "", none⟩ true noThrow []
      (some ⟨"d1", some "cam", some "Camera"⟩)
      (some ⟨some "s1", none, some [⟨some "person", some (mkRat 92 100)⟩]⟩) 5000
      ⟨1, mkAttributes ⟨"d1", some "cam", some "Camera"⟩ "s1" "person" (mkRat 92 100)⟩
      (by decide)).1,
   (metric_schema_exact ⟨true, "", none⟩ true noThrow []
      (some ⟨"d1", some "cam", some "Camera"⟩)
      (some ⟨some "s1", none, some [⟨some "person", some (mkRat 92 100)⟩]⟩) 5000
      ⟨1, mkAttributes ⟨"d1", some "cam", some "Camera"⟩ "s1" "person" (mkRat 92 100)⟩
      (by decide)).2.1⟩

/-- Claim C9 (implicit): the per-session dedup set keys on the raw class
name case-sensitively, while the class filter compares lower-cased strings;
hence a session with two detections whose class names differ only in letter
case (equal after lower-casing, unequal raw), neither matching the denylist,
emits two separate metrics. -/
theorem dedup_case_sensitive_two_metrics (settings : OtelCollectorSettings)
    (st : List (String × Int)) (es : EventSource) (now : Int)
    (c1 c2 dId : String) (q1 q2 : Option ℚ) (ts : Option Int)
    (hen : settings.enabled = true) (hid : es.id ≠ "") (hdne : dId ≠ "")
    (hgate : gateSuppressed (List.lookup es.id st) now
      ((cooldownOr settings.deviceCooldown : Int) * 1000) = false)
    (hc1 : c1 ≠ "") (hc2 : c2 ≠ "") (hne12 : c1 ≠ c2)
    (hlow : jsLower c1 = jsLower c2)
    (hsk1 : shouldSkipClass settings.eventFilter c1 = false)
    (hsk2 : shouldSkipClass settings.eventFilter c2 = false) :
    (∀ (ef a b : String), jsLower a = jsLower b →
      shouldSkipClass ef a = shouldSkipClass ef b) ∧
    (handleEvent settings true noThrow st (some es)
        (some ⟨some dId, ts, some [⟨some c1, q1⟩, ⟨some c2, q2⟩]⟩) now).emitted =
      [⟨1, mkAttributes es dId c1 (numOr q1)⟩, ⟨1, mkAttributes es dId c2 (numOr q2)⟩] := by
  constructor
  · intro ef a b h
    simp only [shouldSkipClass, h]
  · have hs1 : strOr (some c1) "unknown" = c1 := by simp [strOr, hc1]
    have hs2 : strOr (some c2) "unknown" = c2 := by simp [strOr, hc2]
    have hb : (c2 == c1) = false := beq_eq_false_iff_ne.mpr (Ne.symm hne12)
    have hrun : runDetections settings.eventFilter es dId noThrow
        [⟨some c1, q1⟩, ⟨some c2, q2⟩] [] false [] =
        .ok [⟨1, mkAttributes es dId c1 (numOr q1)⟩,
             ⟨1, mkAttributes es dId c2 (numOr q2)⟩] true := by
      simp [runDetections, hs1, hs2, hsk1, hsk2, noThrow, List.contains_nil,
        List.contains_cons, hb]
      exact Ne.symm hne12
    unfold handleEvent
    simp [hen, hid, hdne, hgate, strOptFalsy, hrun]

/-- Witness for C9: "Person" and "person" in one session, empty denylist,
yield two metrics. -/
theorem dedup_case_sensitive_two_metrics_witness :
    (handleEvent ⟨true, "", none⟩ true noThrow []
        (some ⟨"d1", some "cam", some "Camera"⟩)
        (some ⟨some "s1", none, some [⟨some "Person", some (mkRat 92 100)⟩,
                                      ⟨some "person", some (mkRat 50 100)⟩]⟩) 5000).emitted =
      [⟨1, mkAttributes ⟨"d1", some "cam", some "Camera"⟩ "s1" "Person" (mkRat 92 100)⟩,
       ⟨1, mkAttributes ⟨"d1", some "cam", some "Camera"⟩ "s1" "person" (mkRat 50 100)⟩] :=
  (dedup_case_sensitive_two_metrics ⟨true, "", none⟩ [] ⟨"d1", some "cam", some "Camera"⟩
    5000 "Person" "person" "s1" (some (mkRat 92 100)) (some (mkRat 50 100)) none
    rfl (by decide) (by decide) (by decide) (by decide) (by decide) (by decide)
    (by decide) (by decide) (by decide)).2

/-- Claim C10 (implicit): the `"unknown"` class default and the `0` score
default apply to any falsy value, not only to absent fields: (i) the
pipeline cannot distinguish detections with equal defaulted fields, (ii) a
`className` equal to `""` is equivalent to an absent one, and (iii) a
detection whose `className` is the empty string is emitted with class
`"unknown"`. -/
theorem falsy_class_name_defaults_unknown :
    (∀ (settings : OtelCollectorSettings) (hasCounter : Bool)
       (sinkThrows : List (String × String) → Bool) (st : List (String × Int))
       (es : EventSource) (odid : Option String) (ts : Option Int) (now : Int)
       (ds1 ds2 : List Detection), List.Forall₂ detEquiv ds1 ds2 →
       handleEvent settings hasCounter sinkThrows st (some es)
         (some ⟨odid, ts, some ds1⟩) now =
       handleEvent settings hasCounter sinkThrows st (some es)
         (some ⟨odid, ts, some ds2⟩) now) ∧
    (∀ sc : Option ℚ, detEquiv ⟨some "", sc⟩ ⟨none, sc⟩) ∧
    (∀ (settings : OtelCollectorSettings) (st : List (String × Int)) (es : EventSource)
       (dId : String) (ts : Option Int) (now : Int) (sc : Option ℚ),
       settings.enabled = true → es.id ≠ "" → dId ≠ "" →
       gateSuppressed (List.lookup es.id st) now
         ((cooldownOr settings.deviceCooldown : Int) * 1000) = false →
       shouldSkipClass settings.eventFilter "unknown" = false →
       (handleEvent settings true noThrow st (some es)
           (some ⟨some dId, ts, some [⟨some "", sc⟩]⟩) now).emitted =
         [⟨1, mkAttributes es dId "unknown" (numOr sc)⟩]) := by
  refine ⟨?_, ?_, ?_⟩
  · intro settings hasCounter sinkThrows st es odid ts now ds1 ds2 h
    simp only [handleEvent]
    rw [runDetections_congr settings.eventFilter es (odid.getD "") sinkThrows h [] false []]
  · intro sc
    exact ⟨by simp [strOr], rfl⟩
  · intro settings st es dId ts now sc hen hid hdne hgate hnsk
    have hu : strOr (some "") "unknown" = "unknown" := by simp [strOr]
    have hrun : runDetections settings.eventFilter es dId noThrow
        [⟨some "", sc⟩] [] false [] =
        .ok [⟨1, mkAttributes es dId "unknown" (numOr sc)⟩] true := by
      simp [runDetections, hu, hnsk, noThrow, List.contains_nil]
    unfold handleEvent
    simp [hen, hid, hdne, hgate, strOptFalsy, hrun]

/-- Witness for C10: a session whose single detection has `className: ""`
behaves exactly like one with no `className`, and emits class "unknown". -/
theorem falsy_class_name_defaults_unknown_witness :
    handleEvent ⟨true, "", none⟩ true noThrow [] (some ⟨"d1", some "cam", none⟩)
        (some ⟨some "s1", none, some [⟨some "", some (mkRat 92 100)⟩]⟩) 5000 =
      handleEvent ⟨true, "", none⟩ true noThrow [] (some ⟨"d1", some "cam", none⟩)
        (some ⟨some "s1", none, some [⟨none, some (mkRat 92 100)⟩]⟩) 5000 ∧
    (handleEvent ⟨true, "", none⟩ true noThrow [] (some ⟨"d1", some "cam", none⟩)
        (some ⟨some "s1", none, some [⟨some "", some (mkRat 92 100)⟩]⟩) 5000).emitted =
      [⟨1, mkAttributes ⟨"d1", some "cam", none⟩ "s1" "unknown" (mkRat 92 100)⟩] :=
  ⟨falsy_class_name_defaults_unknown.1 ⟨true, "", none⟩ true noThrow []
      ⟨"d1", some "cam", none⟩ (some "s1") none 5000
      [⟨some "", some (mkRat 92 100)⟩] [⟨none, some (mkRat 92 100)⟩]
      (List.forall₂_cons.mpr ⟨falsy_class_name_defaults_unknown.2.1 (some (mkRat 92 100)),
        List.Forall₂.nil⟩),
   falsy_class_name_defaults_unknown.2.2 ⟨true, "", none⟩ [] ⟨"d1", some "cam", none⟩
      "s1" none 5000 (some (mkRat 92 100)) rfl (by decide) (by decide) (by decide)
      (by decide)⟩
